import Mathlib

/-!
Shallow embedding of `myrrix.py` (romovpa/python-myrrix), a thin HTTP client
for the Myrrix recommendation serving layer.

Each Python method is split into two pure functions:
* `<method>_request` — the HTTP request description the method hands to the
  underlying HTTP library (URL, verb, query parameters, headers, and the
  `data` argument it passes to the dispatcher `_make_request`, together
  with the body the dispatcher actually transmits);
* `<method>_result` — how the method turns the HTTP response into the value
  it returns to the caller, with Python exceptions modelled by `Except`.

Python floats are modelled two ways, matching how they are used:
* as the exact rational denoted by a decimal string, on the parsing side
  (`float(s)` on plain decimal strings — the only forms the client meets);
* as their `str()` form (`PyScalar.floatRepr`), on the serialisation side,
  where only the repr string ever matters to the program.
-/

/-- Python exceptions the embedded code can raise. -/
inductive PyErr where
  | typeError
  | valueError
deriving DecidableEq

/-- Python values flowing through the client: `None`, JSON-decoded
structures (booleans, numbers, strings, lists) and tuples produced by
`map(tuple, ...)`.  Numbers are exact rationals (see the file comment). -/
inductive PyObj where
  | none
  | bool (b : Bool)
  | int (n : Int)
  | float (q : ℚ)
  | str (s : String)
  | list (xs : List PyObj)
  | tuple (xs : List PyObj)

/-- Scalars that the client serialises with `str()`: integers print in
decimal, a float is carried by its repr string, strings print as-is. -/
inductive PyScalar where
  | int (n : Int)
  | floatRepr (s : String)
  | str (s : String)
deriving DecidableEq

/-- Python `str()` on the scalars the client serialises. -/
def pyStr : PyScalar → String
  | .int n => toString n
  | .floatRepr s => s
  | .str s => s

/-- An HTTP request as the client builds it.  `params` is the ordered
multi-valued query mapping (a `None` value is dropped by the HTTP library
when encoding); `dataArg` is the `data` argument received by
`_make_request`; `sentBody` is the body actually given to the HTTP call. -/
structure Request where
  method : String
  url : String
  params : List (String × Option String)
  headers : List (String × String)
  dataArg : Option String
  sentBody : Option String
  lines_of_float : Bool
deriving DecidableEq

/-- An HTTP response: success flag (`resp.ok`), raw body (`resp.content`)
and its JSON decoding (`resp.json()`), when the body is JSON. -/
structure Response where
  ok : Bool
  content : String
  json : PyObj

/-- The request side of `MyrrixClient._make_request`: forms the URL from
host, port and path, sets the `Accept: application/json` header, and calls
`method_func(url, params=params, headers=headers)`.  The `data` parameter
is received but never passed on to the HTTP call, so the transmitted body
is always absent. -/
def make_request (host : String) (port : Int) (method path : String)
    (params : List (String × Option String)) (data : Option String)
    (lof : Bool) : Request :=
  { method := method
    url := "http://" ++ host ++ ":" ++ toString port ++ "/" ++ path
    params := params
    headers := [("Accept", "application/json")]
    dataArg := data
    sentBody := Option.none
    lines_of_float := lof }

/-- The whitespace characters Python's `str.strip()` removes. -/
def pyWhitespace (c : Char) : Bool :=
  c == ' ' || c == '\t' || c == '\n' || c == '\r' || c == '\x0b' || c == '\x0c'

/-- Python `s.strip()`: drops leading and trailing whitespace. -/
def pyStrip (s : String) : String :=
  String.mk (((s.data.dropWhile pyWhitespace).reverse.dropWhile pyWhitespace).reverse)

/-- Splitting a character list on a separator, Python-style: `n`
separators yield `n + 1` groups, so the empty list yields one empty
group. -/
def splitChar (sep : Char) : List Char → List (List Char)
  | [] => [[]]
  | c :: cs =>
      if c == sep then [] :: splitChar sep cs
      else
        match splitChar sep cs with
        | [] => [[c]]
        | g :: gs => (c :: g) :: gs

/-- Python `s.split(sep)` for a one-character separator. -/
def pySplit (s : String) (sep : Char) : List String :=
  (splitChar sep s.data).map String.mk

/-- Value of a digit string, most significant first (`int` of a digit run). -/
def digitsVal (cs : List Char) : Nat :=
  cs.foldl (fun acc c => acc * 10 + (c.toNat - 48)) 0

/-- Python `float(s)` on plain decimal strings (optional sign, digits,
optional fractional part), the only forms the serving layer sends; any
other string raises `ValueError`.  The result is the exact rational the
decimal denotes. -/
def pyFloat (s : String) : Except PyErr ℚ :=
  let t := pyStrip s
  let signed : Bool × List Char :=
    match t.data with
    | '-' :: rest => (true, rest)
    | '+' :: rest => (false, rest)
    | cs => (false, cs)
  let intPart := signed.2.takeWhile Char.isDigit
  let rest := signed.2.dropWhile Char.isDigit
  let q? : Option ℚ :=
    match rest with
    | [] => if intPart.isEmpty then Option.none else some (digitsVal intPart : ℚ)
    | '.' :: frac =>
        if intPart.isEmpty ∧ frac.isEmpty then Option.none
        else if frac.all Char.isDigit then
          some ((digitsVal intPart : ℚ) + (digitsVal frac : ℚ) / ((10 : ℚ) ^ frac.length))
        else Option.none
    | _ => Option.none
  match q? with
  | some q => .ok (if signed.1 then -q else q)
  | Option.none => .error .valueError

/-- The response side of `_make_request`: a non-success status returns
`None`; in `lines_of_float` mode the body is stripped, split on newlines
and every line parsed with `float` (a bad line raises `ValueError`);
otherwise the JSON decoding of the body is returned as-is. -/
def make_request_result (resp : Response) (lof : Bool) : Except PyErr PyObj :=
  if !resp.ok then .ok PyObj.none
  else if lof then do
    let qs ← (pySplit (pyStrip resp.content) '\n').mapM pyFloat
    .ok (PyObj.list (qs.map PyObj.float))
  else .ok resp.json

/-- Python iteration over a value: lists and tuples yield their elements, a
string yields its characters, anything else (including `None`) raises
`TypeError`. -/
def pyIter : PyObj → Except PyErr (List PyObj)
  | .list xs => .ok xs
  | .tuple xs => .ok xs
  | .str s => .ok (s.data.map fun c => .str (String.singleton c))
  | _ => .error .typeError

/-- Python `tuple(x)`: collects an iterable into a tuple. -/
def pyTuple (x : PyObj) : Except PyErr PyObj := do
  let xs ← pyIter x
  .ok (PyObj.tuple xs)

/-- Python `map(tuple, x)`: iterates `x` and applies `tuple` to each
element, collecting the results into a list.  Raises `TypeError` when `x`
is not iterable — in particular when `x` is `None`. -/
def pyMapTuple (x : PyObj) : Except PyErr PyObj := do
  let xs ← pyIter x
  let ts ← xs.mapM pyTuple
  .ok (PyObj.list ts)

/-- Python `str()` of a boolean, as the HTTP library encodes query values. -/
def pyBoolStr (b : Bool) : String := if b then "True" else "False"

/-- `MyrrixClient._recommend_params`: a multi-valued mapping holding
`howMany` and `considerKnownItems` (kept even when absent; a `None` value
is dropped later, at encoding time) followed by one `rescorerParams` entry
per given rescorer parameter, in order. -/
def recommend_params (how_many : Option Int) (consider_known_items : Option Bool)
    (rescorer_params : Option (List String)) : List (String × Option String) :=
  [("howMany", how_many.map toString),
   ("considerKnownItems", consider_known_items.map pyBoolStr)] ++
  (match rescorer_params with
   | Option.none => []
   | some vs => vs.map fun v => ("rescorerParams", some v))

/-- `MultiDict.getlist`: all values recorded under a key, in order. -/
def multi_get (params : List (String × Option String)) (key : String) :
    List (Option String) :=
  (params.filter fun p => p.1 == key).map Prod.snd

/-- `add_preference`: converts the strength to its `str()` form when given,
then `POST pref/{user_id}/{item_id}` with the strength string as the
dispatcher's `data` argument. -/
def add_preference_request (host : String) (port : Int) (user_id item_id : Int)
    (strength : Option PyScalar) : Request :=
  make_request host port "POST"
    ("pref/" ++ toString user_id ++ "/" ++ toString item_id)
    [] (strength.map pyStr) false

/-- `remove_preference`: `DELETE pref/{user_id}/{item_id}`, no data. -/
def remove_preference_request (host : String) (port : Int)
    (user_id item_id : Int) : Request :=
  make_request host port "DELETE"
    ("pref/" ++ toString user_id ++ "/" ++ toString item_id)
    [] Option.none false

/-- `set_user_tag`: `POST tag/user/{user_id}/{tag}` with the strength
string as the dispatcher's `data` argument. -/
def set_user_tag_request (host : String) (port : Int) (user_id : Int)
    (tag : String) (strength : Option PyScalar) : Request :=
  make_request host port "POST"
    ("tag/user/" ++ toString user_id ++ "/" ++ tag)
    [] (strength.map pyStr) false

/-- `set_item_tag`: `POST tag/item/{item_id}/{tag}` with the strength
string as the dispatcher's `data` argument. -/
def set_item_tag_request (host : String) (port : Int) (item_id : Int)
    (tag : String) (strength : Option PyScalar) : Request :=
  make_request host port "POST"
    ("tag/item/" ++ toString item_id ++ "/" ++ tag)
    [] (strength.map pyStr) false

/-- `ingest`: serialises the batch as comma-separated rows joined by
newlines and passes it as the dispatcher's `data` argument on
`POST ingest`. -/
def ingest_request (host : String) (port : Int)
    (preferences : List (List PyScalar)) : Request :=
  make_request host port "POST" "ingest" []
    (some (String.intercalate "\n"
      (preferences.map fun entry => String.intercalate "," (entry.map pyStr))))
    false

/-- `recommend`: `GET recommend/{user_id}` with the common query params. -/
def recommend_request (host : String) (port : Int) (user_id : Int)
    (how_many : Option Int) (consider_known_items : Option Bool)
    (rescorer_params : Option (List String)) : Request :=
  make_request host port "GET" ("recommend/" ++ toString user_id)
    (recommend_params how_many consider_known_items rescorer_params)
    Option.none false

/-- `recommend_to_many`: `GET recommendToMany/{id}/{id}/...`. -/
def recommend_to_many_request (host : String) (port : Int)
    (user_ids : List Int) (how_many : Option Int)
    (consider_known_items : Option Bool)
    (rescorer_params : Option (List String)) : Request :=
  make_request host port "GET"
    ("recommendToMany/" ++ String.intercalate "/" (user_ids.map toString))
    (recommend_params how_many consider_known_items rescorer_params)
    Option.none false

/-- One entry of an anonymous preference list: either a bare item ID (not
a tuple) or a tuple of values such as `(itemID, strength)`. -/
inductive AnonPref where
  | bare (n : Int)
  | tup (xs : List PyScalar)

/-- `'='.join(map(str, preference))`: iterating a bare integer raises
`TypeError`; a tuple joins the `str()` of its members with `=`. -/
def anon_pref_string : AnonPref → Except PyErr String
  | .bare _ => .error .typeError
  | .tup xs => .ok (String.intercalate "=" (xs.map pyStr))

/-- The generator feeding `'/'.join`: serialises the entries one by one,
propagating the first `TypeError`. -/
def anon_pref_strings : List AnonPref → Except PyErr (List String)
  | [] => .ok []
  | p :: ps => do
      let s ← anon_pref_string p
      let ss ← anon_pref_strings ps
      .ok (s :: ss)

/-- `'/'.join('='.join(map(str, preference)) for preference in preferences)`:
each entry serialised with `anon_pref_string`, joined by `/`; the first
bare entry raises before any request is issued. -/
def anon_prefs_string (preferences : List AnonPref) : Except PyErr String := do
  let ss ← anon_pref_strings preferences
  .ok (String.intercalate "/" ss)

/-- `recommend_to_anonymous`: builds the preference path segments (which
may raise `TypeError`), then `GET recommendToAnonymous/{prefs}` with the
common query params. -/
def recommend_to_anonymous_request (host : String) (port : Int)
    (preferences : List AnonPref) (how_many : Option Int)
    (consider_known_items : Option Bool)
    (rescorer_params : Option (List String)) : Except PyErr Request := do
  let s ← anon_prefs_string preferences
  .ok (make_request host port "GET" ("recommendToAnonymous/" ++ s)
    (recommend_params how_many consider_known_items rescorer_params)
    Option.none false)

/-- Argument of the item-ID-taking queries: a single identifier or a
Python list of identifiers. -/
inductive IdsArg where
  | single (n : Int)
  | list (ns : List Int)

/-- `if not isinstance(item_ids, list): item_ids = [item_ids]` — a single
identifier is wrapped into a one-element list. -/
def normalize_item_ids : IdsArg → List Int
  | .single n => [n]
  | .list ns => ns

/-- `most_similar_items`: `GET similarity/{id}/{id}/...` with the common
query params, after normalising the item-IDs argument. -/
def most_similar_items_request (host : String) (port : Int)
    (item_ids : IdsArg) (how_many : Option Int)
    (consider_known_items : Option Bool)
    (rescorer_params : Option (List String)) : Request :=
  make_request host port "GET"
    ("similarity/" ++ String.intercalate "/" ((normalize_item_ids item_ids).map toString))
    (recommend_params how_many consider_known_items rescorer_params)
    Option.none false

/-- `similarity_to_item`: `GET similarityToItem/{to_item_id}/{id}/...`,
no query params, after normalising the item-IDs argument. -/
def similarity_to_item_request (host : String) (port : Int)
    (to_item_id : Int) (item_ids : IdsArg) : Request :=
  make_request host port "GET"
    ("similarityToItem/" ++ toString to_item_id ++ "/" ++
      String.intercalate "/" ((normalize_item_ids item_ids).map toString))
    [] Option.none false

/-- `estimate`: `GET estimate/{user_id}/{id}/...` in `lines_of_float`
decode mode, after normalising the item-IDs argument. -/
def estimate_request (host : String) (port : Int) (user_id : Int)
    (item_ids : IdsArg) : Request :=
  make_request host port "GET"
    ("estimate/" ++ toString user_id ++ "/" ++
      String.intercalate "/" ((normalize_item_ids item_ids).map toString))
    [] Option.none true

/-- `estimate_for_anonymous`: builds the preference path segments (which
may raise `TypeError`), then `GET estimateForAnonymous/{to_item_id}/{prefs}`,
no query params. -/
def estimate_for_anonymous_request (host : String) (port : Int)
    (to_item_id : Int) (preferences : List AnonPref) : Except PyErr Request := do
  let s ← anon_prefs_string preferences
  .ok (make_request host port "GET"
    ("estimateForAnonymous/" ++ toString to_item_id ++ "/" ++ s)
    [] Option.none false)

/-- `because`: `GET because/{user_id}/{item_id}` with a plain `howMany`
query param. -/
def because_request (host : String) (port : Int) (user_id item_id : Int)
    (how_many : Option Int) : Request :=
  make_request host port "GET"
    ("because/" ++ toString user_id ++ "/" ++ toString item_id)
    [("howMany", how_many.map toString)] Option.none false

/-- `most_popular_items`: `GET mostPopularItems` with the common query
params. -/
def most_popular_items_request (host : String) (port : Int)
    (how_many : Option Int) (consider_known_items : Option Bool)
    (rescorer_params : Option (List String)) : Request :=
  make_request host port "GET" "mostPopularItems"
    (recommend_params how_many consider_known_items rescorer_params)
    Option.none false

/-- `refresh`: `POST refresh`, no params, no data. -/
def refresh_request (host : String) (port : Int) : Request :=
  make_request host port "POST" "refresh" [] Option.none false

/-- `is_ready`: bypasses `_make_request` and issues a bare
`requests.head` on `http://{host}:{port}/ready` — no headers, no params,
no body. -/
def is_ready_request (host : String) (port : Int) : Request :=
  { method := "HEAD"
    url := "http://" ++ host ++ ":" ++ toString port ++ "/ready"
    params := []
    headers := []
    dataArg := Option.none
    sentBody := Option.none
    lines_of_float := false }

/-- `get_all_user_ids`: `GET user/allIDs`. -/
def get_all_user_ids_request (host : String) (port : Int) : Request :=
  make_request host port "GET" "user/allIDs" [] Option.none false

/-- `get_all_item_ids`: `GET item/allIDs`. -/
def get_all_item_ids_request (host : String) (port : Int) : Request :=
  make_request host port "GET" "item/allIDs" [] Option.none false

/-- `recommend` response handling: `map(tuple, result)` over the
dispatcher's value — raises `TypeError` when the dispatcher returned
`None` (non-success status). -/
def recommend_result (resp : Response) : Except PyErr PyObj := do
  let r ← make_request_result resp false
  pyMapTuple r

/-- `recommend_to_many` response handling: `map(tuple, result)`. -/
def recommend_to_many_result (resp : Response) : Except PyErr PyObj := do
  let r ← make_request_result resp false
  pyMapTuple r

/-- `recommend_to_anonymous` response handling: `map(tuple, result)`. -/
def recommend_to_anonymous_result (resp : Response) : Except PyErr PyObj := do
  let r ← make_request_result resp false
  pyMapTuple r

/-- `because` response handling: `map(tuple, result)`. -/
def because_result (resp : Response) : Except PyErr PyObj := do
  let r ← make_request_result resp false
  pyMapTuple r

/-- `most_popular_items` response handling: `map(tuple, result)`. -/
def most_popular_items_result (resp : Response) : Except PyErr PyObj := do
  let r ← make_request_result resp false
  pyMapTuple r

/-- `most_similar_items` returns the dispatcher's value unchanged. -/
def most_similar_items_result (resp : Response) : Except PyErr PyObj :=
  make_request_result resp false

/-- `similarity_to_item` returns the dispatcher's value unchanged. -/
def similarity_to_item_result (resp : Response) : Except PyErr PyObj :=
  make_request_result resp false

/-- `estimate` returns the dispatcher's value in `lines_of_float` mode. -/
def estimate_result (resp : Response) : Except PyErr PyObj :=
  make_request_result resp true

/-- `estimate_for_anonymous` returns the dispatcher's value unchanged. -/
def estimate_for_anonymous_result (resp : Response) : Except PyErr PyObj :=
  make_request_result resp false

/-- `get_all_user_ids` returns the dispatcher's value unchanged. -/
def get_all_user_ids_result (resp : Response) : Except PyErr PyObj :=
  make_request_result resp false

/-- `get_all_item_ids` returns the dispatcher's value unchanged. -/
def get_all_item_ids_result (resp : Response) : Except PyErr PyObj :=
  make_request_result resp false

/-- `is_ready` returns `resp.ok` of the HEAD response. -/
def is_ready_result (resp : Response) : Bool := resp.ok

/-- `add_preference` falls off the end of its body: Python returns `None`
to the caller, whatever the dispatcher's value was. -/
def add_preference_result (_ : Response) : PyObj := PyObj.none

/-- `remove_preference` falls off the end of its body: returns `None`. -/
def remove_preference_result (_ : Response) : PyObj := PyObj.none

/-- `set_user_tag` falls off the end of its body: returns `None`. -/
def set_user_tag_result (_ : Response) : PyObj := PyObj.none

/-- `set_item_tag` falls off the end of its body: returns `None`. -/
def set_item_tag_result (_ : Response) : PyObj := PyObj.none

/-- `ingest` falls off the end of its body: returns `None`. -/
def ingest_result (_ : Response) : PyObj := PyObj.none

/-- `refresh` falls off the end of its body: returns `None`. -/
def refresh_result (_ : Response) : PyObj := PyObj.none

/-- Helper: `getlist` on the parameter mapping built by
`_recommend_params` returns exactly the given rescorer parameters, in
order. -/
theorem multi_get_rescorer (hm : Option Int) (cki : Option Bool) (rp : List String) :
    multi_get (recommend_params hm cki (some rp)) "rescorerParams" = rp.map some := by
  simp [multi_get, recommend_params]
  induction rp with
  | nil => rfl
  | cons v vs ih => simpa using ih

/-- Helper: the preference-segment generator raises `TypeError` whenever
the preference list holds a bare (non-iterable) item ID. -/
theorem anon_pref_strings_bare (preferences : List AnonPref) (n : Int)
    (h : AnonPref.bare n ∈ preferences) :
    anon_pref_strings preferences = .error .typeError := by
  induction preferences with
  | nil => cases h
  | cons p ps ih =>
    cases p with
    | bare m => rfl
    | tup xs =>
      have hmem : AnonPref.bare n ∈ ps := by
        rcases List.mem_cons.mp h with h1 | h2
        · simp at h1
        · exact h2
      simp [anon_pref_strings, anon_pref_string, ih hmem, bind, Except.bind]

/-- Claim C1, the code evaluated at the failing input
`add_preference(1, 2, 3.0)`: the call issues one POST to `pref/1/2` and
hands the decimal string "3.0" to the dispatcher as its `data` argument,
but the dispatcher never forwards `data` to the HTTP call, so the
transmitted request carries no body — against the claimed body "3.0". -/
theorem C1_add_preference_body_dropped :
    (add_preference_request "localhost" 8080 1 2
      (some (PyScalar.floatRepr "3.0"))).method = "POST" ∧
    (add_preference_request "localhost" 8080 1 2
      (some (PyScalar.floatRepr "3.0"))).url = "http://localhost:8080/pref/1/2" ∧
    (add_preference_request "localhost" 8080 1 2
      (some (PyScalar.floatRepr "3.0"))).dataArg = some "3.0" ∧
    (add_preference_request "localhost" 8080 1 2
      (some (PyScalar.floatRepr "3.0"))).sentBody = Option.none :=
  ⟨rfl, rfl, rfl, rfl⟩

/-- Claim C2, counterexample: against a server answering the GET with a
non-success status (404), `recommend` does not return an empty result —
`map(tuple, None)` raises a `TypeError`. -/
theorem C2_counterexample :
    recommend_result ⟨false, "", PyObj.none⟩ = .error .typeError := rfl

/-- Claim C2 as amended: on a non-success response, the operations that
return the dispatcher's value directly (mostSimilarItems,
similarityToItem, estimate, estimateForAnonymous, getAllUserIds,
getAllItemIds) yield the absent value `None` without raising, and
`isReady()` returns false; but the operations that tuple-wrap the result
(recommend, recommendToMany, recommendToAnonymous, because,
mostPopularItems) raise a `TypeError` on the absent value. -/
theorem C2_amended (c : String) (j : PyObj) :
    recommend_result ⟨false, c, j⟩ = .error .typeError ∧
    recommend_to_many_result ⟨false, c, j⟩ = .error .typeError ∧
    recommend_to_anonymous_result ⟨false, c, j⟩ = .error .typeError ∧
    because_result ⟨false, c, j⟩ = .error .typeError ∧
    most_popular_items_result ⟨false, c, j⟩ = .error .typeError ∧
    most_similar_items_result ⟨false, c, j⟩ = .ok PyObj.none ∧
    similarity_to_item_result ⟨false, c, j⟩ = .ok PyObj.none ∧
    estimate_result ⟨false, c, j⟩ = .ok PyObj.none ∧
    estimate_for_anonymous_result ⟨false, c, j⟩ = .ok PyObj.none ∧
    get_all_user_ids_result ⟨false, c, j⟩ = .ok PyObj.none ∧
    get_all_item_ids_result ⟨false, c, j⟩ = .ok PyObj.none ∧
    is_ready_result ⟨false, c, j⟩ = false :=
  ⟨rfl, rfl, rfl, rfl, rfl, rfl, rfl, rfl, rfl, rfl, rfl, rfl⟩

/-- Claim C3: for every operation and all arguments the transmitted
request carries no body — the dispatcher accepts a `data` argument but
never passes it to the HTTP call, so the bodies built by
`add_preference`, `set_user_tag`, `set_item_tag` and `ingest` (visible
here as the `dataArg` each hands over) are discarded before sending. -/
theorem C3_no_body_transmitted
    (host : String) (port : Int) (method path : String)
    (params : List (String × Option String)) (data : Option String) (lof : Bool)
    (user_id item_id : Int) (tag : String) (strength : PyScalar)
    (preferences : List (List PyScalar)) :
    (make_request host port method path params data lof).sentBody = Option.none ∧
    (add_preference_request host port user_id item_id (some strength)).dataArg =
      some (pyStr strength) ∧
    (add_preference_request host port user_id item_id (some strength)).sentBody =
      Option.none ∧
    (set_user_tag_request host port user_id tag (some strength)).dataArg =
      some (pyStr strength) ∧
    (set_user_tag_request host port user_id tag (some strength)).sentBody =
      Option.none ∧
    (set_item_tag_request host port item_id tag (some strength)).dataArg =
      some (pyStr strength) ∧
    (set_item_tag_request host port item_id tag (some strength)).sentBody =
      Option.none ∧
    (ingest_request host port preferences).dataArg.isSome = true ∧
    (ingest_request host port preferences).sentBody = Option.none ∧
    (is_ready_request host port).sentBody = Option.none :=
  ⟨rfl, rfl, rfl, rfl, rfl, rfl, rfl, rfl, rfl, rfl⟩

/-- Claim C4: `ingest([(1,2,3.0),(4,5)])` serialises the batch into the
request body string "1,2,3.0\n4,5" — one comma-separated row per
preference tuple joined by newlines, the strength column present only
when given — and passes it as the body (`data`) of `POST ingest`. -/
theorem C4_ingest_body :
    (ingest_request "localhost" 8080
      [[PyScalar.int 1, PyScalar.int 2, PyScalar.floatRepr "3.0"],
       [PyScalar.int 4, PyScalar.int 5]]).dataArg = some "1,2,3.0\n4,5" ∧
    (ingest_request "localhost" 8080
      [[PyScalar.int 1, PyScalar.int 2, PyScalar.floatRepr "3.0"],
       [PyScalar.int 4, PyScalar.int 5]]).method = "POST" ∧
    (ingest_request "localhost" 8080
      [[PyScalar.int 1, PyScalar.int 2, PyScalar.floatRepr "3.0"],
       [PyScalar.int 4, PyScalar.int 5]]).url = "http://localhost:8080/ingest" :=
  ⟨rfl, rfl, rfl⟩

/-- Claim C5, counterexample: the HEAD request of `is_ready` carries no
headers at all — in particular not `Accept: application/json` — because
`is_ready` bypasses the dispatcher and calls the HTTP library directly. -/
theorem C5_counterexample :
    (is_ready_request "localhost" 8080).headers = [] := rfl

/-- Claim C5 as amended: every call made through the dispatcher
`_make_request` carries exactly the header `Accept: application/json`,
but the HEAD request of `isReady` bypasses the dispatcher and carries no
headers. -/
theorem C5_amended (host : String) (port : Int) (method path : String)
    (params : List (String × Option String)) (data : Option String) (lof : Bool) :
    (make_request host port method path params data lof).headers =
      [("Accept", "application/json")] ∧
    (is_ready_request host port).headers = [] :=
  ⟨rfl, rfl⟩

/-- Claim C6: `estimate` alone dispatches in the newline-delimited float
decode mode — every other operation leaves the flag off and so parses the
response as JSON — and `estimate(7, [1,2,3])` issues
`GET estimate/7/1/2/3`; against a response whose body is
"0.5\n1.2\n-0.3" it yields the values 0.5, 1.2, -0.3 (exact rationals in
this model) in the order the lines arrive, which the server sends in
request order. -/
theorem C6_estimate_lines_of_float
    (host : String) (port : Int) (user_id item_id to_item_id : Int)
    (item_ids : IdsArg) (user_ids : List Int) (tag : String)
    (strength : Option PyScalar) (batch : List (List PyScalar))
    (preferences : List AnonPref)
    (hm : Option Int) (cki : Option Bool) (rp : Option (List String)) (j : PyObj) :
    (estimate_request host port user_id item_ids).lines_of_float = true ∧
    (add_preference_request host port user_id item_id strength).lines_of_float = false ∧
    (remove_preference_request host port user_id item_id).lines_of_float = false ∧
    (set_user_tag_request host port user_id tag strength).lines_of_float = false ∧
    (set_item_tag_request host port item_id tag strength).lines_of_float = false ∧
    (ingest_request host port batch).lines_of_float = false ∧
    (recommend_request host port user_id hm cki rp).lines_of_float = false ∧
    (recommend_to_many_request host port user_ids hm cki rp).lines_of_float = false ∧
    (recommend_to_anonymous_request host port preferences hm cki rp).map
      (fun r => r.lines_of_float) = (anon_prefs_string preferences).map (fun _ => false) ∧
    (most_similar_items_request host port item_ids hm cki rp).lines_of_float = false ∧
    (similarity_to_item_request host port to_item_id item_ids).lines_of_float = false ∧
    (estimate_for_anonymous_request host port to_item_id preferences).map
      (fun r => r.lines_of_float) = (anon_prefs_string preferences).map (fun _ => false) ∧
    (because_request host port user_id item_id hm).lines_of_float = false ∧
    (most_popular_items_request host port hm cki rp).lines_of_float = false ∧
    (refresh_request host port).lines_of_float = false ∧
    (get_all_user_ids_request host port).lines_of_float = false ∧
    (get_all_item_ids_request host port).lines_of_float = false ∧
    (estimate_request "localhost" 8080 7 (IdsArg.list [1, 2, 3])).url =
      "http://localhost:8080/estimate/7/1/2/3" ∧
    estimate_result ⟨true, "0.5\n1.2\n-0.3", j⟩ =
      .ok (PyObj.list [PyObj.float (1/2), PyObj.float (6/5), PyObj.float (-(3/10))]) := by
  refine ⟨rfl, rfl, rfl, rfl, rfl, rfl, rfl, rfl, ?_, rfl, rfl, ?_, rfl, rfl, rfl, rfl,
    rfl, rfl, ?_⟩
  · cases hs : anon_prefs_string preferences <;>
      simp [recommend_to_anonymous_request, hs, bind, Except.bind, Except.map, make_request]
  · cases hs : anon_prefs_string preferences <;>
      simp [estimate_for_anonymous_request, hs, bind, Except.bind, Except.map, make_request]
  · simp [estimate_result, make_request_result, pySplit, pyStrip, pyWhitespace, splitChar,
      pyFloat, digitsVal, List.mapM, List.mapM.loop, bind, Except.bind, pure, Except.pure]
    norm_num

/-- Claim C7: `recommend(42, howMany=5, rescorerParams=["a","b"])` issues
a GET to `recommend/42` whose query parameters contain `howMany=5` and
the two `rescorerParams` entries "a" and "b" in the given order; in
general, encoding any rescorer-parameter list into the multi-valued
mapping and reading the entries back (`getlist`) preserves count and
order. -/
theorem C7_recommend_query (hm : Option Int) (cki : Option Bool) (rp : List String) :
    (recommend_request "localhost" 8080 42 (some 5) Option.none
      (some ["a", "b"])).method = "GET" ∧
    (recommend_request "localhost" 8080 42 (some 5) Option.none
      (some ["a", "b"])).url = "http://localhost:8080/recommend/42" ∧
    ("howMany", some "5") ∈ (recommend_request "localhost" 8080 42 (some 5)
      Option.none (some ["a", "b"])).params ∧
    multi_get (recommend_request "localhost" 8080 42 (some 5) Option.none
      (some ["a", "b"])).params "rescorerParams" = [some "a", some "b"] ∧
    multi_get (recommend_params hm cki (some rp)) "rescorerParams" = rp.map some := by
  refine ⟨rfl, rfl, ?_, ?_, multi_get_rescorer hm cki rp⟩
  · simp only [recommend_request, make_request, recommend_params]
    exact List.mem_cons_self _ _
  · exact multi_get_rescorer (some 5) Option.none ["a", "b"]

/-- Claim C8: the mutators return `None` whatever the response was, so the
returned value cannot distinguish a successful call from a failed one. -/
theorem C8_mutators_return_none (resp resp' : Response) :
    add_preference_result resp = PyObj.none ∧
    remove_preference_result resp = PyObj.none ∧
    set_user_tag_result resp = PyObj.none ∧
    set_item_tag_result resp = PyObj.none ∧
    ingest_result resp = PyObj.none ∧
    add_preference_result resp = add_preference_result resp' ∧
    remove_preference_result resp = remove_preference_result resp' ∧
    set_user_tag_result resp = set_user_tag_result resp' ∧
    set_item_tag_result resp = set_item_tag_result resp' ∧
    ingest_result resp = ingest_result resp' :=
  ⟨rfl, rfl, rfl, rfl, rfl, rfl, rfl, rfl, rfl, rfl⟩

/-- Claim C9: for `most_similar_items`, `similarity_to_item` and
`estimate`, a single item identifier is normalised into a one-element
list before the path is built, so the request is identical to the one
for the one-element list. -/
theorem C9_single_id_normalized (host : String) (port : Int)
    (n user_id to_item_id : Int) (hm : Option Int) (cki : Option Bool)
    (rp : Option (List String)) :
    most_similar_items_request host port (IdsArg.single n) hm cki rp =
      most_similar_items_request host port (IdsArg.list [n]) hm cki rp ∧
    similarity_to_item_request host port to_item_id (IdsArg.single n) =
      similarity_to_item_request host port to_item_id (IdsArg.list [n]) ∧
    estimate_request host port user_id (IdsArg.single n) =
      estimate_request host port user_id (IdsArg.list [n]) :=
  ⟨rfl, rfl, rfl⟩

/-- Claim C10: whenever the preference list passed to
`recommend_to_anonymous` or `estimate_for_anonymous` contains a bare
non-iterable item ID, building the path segments raises `TypeError`, so
the call fails before any HTTP request is issued (no request value is
ever produced). -/
theorem C10_bare_pref_raises (host : String) (port : Int) (to_item_id : Int)
    (preferences : List AnonPref) (hm : Option Int) (cki : Option Bool)
    (rp : Option (List String)) (n : Int)
    (h : AnonPref.bare n ∈ preferences) :
    recommend_to_anonymous_request host port preferences hm cki rp =
      .error .typeError ∧
    estimate_for_anonymous_request host port to_item_id preferences =
      .error .typeError := by
  have hs : anon_prefs_string preferences = .error .typeError := by
    simp [anon_prefs_string, anon_pref_strings_bare preferences n h, bind, Except.bind]
  exact ⟨by simp [recommend_to_anonymous_request, hs, bind, Except.bind],
    by simp [estimate_for_anonymous_request, hs, bind, Except.bind]⟩

/-- Witness for C10 at the concrete input `preferences = [5]` (a bare
item ID): both anonymous operations raise `TypeError`. -/
theorem C10_bare_pref_raises_witness :
    recommend_to_anonymous_request "localhost" 8080 [AnonPref.bare 5]
      Option.none Option.none Option.none = .error .typeError ∧
    estimate_for_anonymous_request "localhost" 8080 7 [AnonPref.bare 5] =
      .error .typeError :=
  C10_bare_pref_raises "localhost" 8080 7 [AnonPref.bare 5]
    Option.none Option.none Option.none 5 (List.mem_cons_self _ _)
